import Mathlib

/-!
Verification of the risk-ai-worker HOLD-escalation pipeline.

Shallow embedding of `src/core.py` and `src/index.py`.  Python dictionaries
of feature values become association lists over `PyVal`; machine floats are
modelled as exact rationals; fallible Python operations (float()/int()
conversion, expression evaluation, network attempts) return `Option`/`Except`.
Two helpers called by `index.py` (`fetch_phase1_hold_narrative`,
`build_behavior_context`) are not present in `src/core.py`; they are modelled
from the specification and marked as such in their doc comments.
-/

namespace RiskWorker

/-- Python runtime values occurring in this pipeline: `None`, booleans,
numbers (ints and floats collapsed into exact rationals), strings, class
objects (as produced by the `__class__` attribute) and bound methods. -/
inductive PyVal where
  | none : PyVal
  | bool (b : Bool) : PyVal
  | num (q : ℚ) : PyVal
  | str (s : String) : PyVal
  | cls (c : String) : PyVal
  | method (self : PyVal) (name : String) : PyVal
deriving DecidableEq, Repr

/-- A Python dict of feature values, as an association list (first binding of
a key is the live one; Python dicts have unique keys). -/
def Features := List (String × PyVal)
deriving DecidableEq, Repr

/-- First binding of a key, if any. -/
def dictFind? (f : Features) (k : String) : Option PyVal :=
  (List.find? (fun kv => kv.1 = k) f).map (fun kv => kv.2)

/-- Python `d.get(k)`: `None` when the key is absent. -/
def fget (f : Features) (k : String) : PyVal :=
  (dictFind? f k).getD PyVal.none

/-- Python `d.get(k, default)`. -/
def fgetD (f : Features) (k : String) (d : PyVal) : PyVal :=
  (dictFind? f k).getD d

/-- Python `k in d`. -/
def fmem (f : Features) (k : String) : Bool :=
  (dictFind? f k).isSome

/-- Python `d[k] = v`: replace the first binding in place, else append
(matches dict update/insert order semantics). -/
def fset (f : Features) (k : String) (v : PyVal) : Features :=
  match f with
  | [] => [(k, v)]
  | (k', v') :: rest => if k' = k then (k, v) :: rest else (k', v') :: fset rest k v

/-- Python truthiness of the values we model. -/
def truthy : PyVal → Bool
  | PyVal.none => false
  | PyVal.bool b => b
  | PyVal.num q => q ≠ 0
  | PyVal.str s => s ≠ ""
  | PyVal.cls _ => true
  | PyVal.method _ _ => true

/-- Decimal digits of a string as a natural number, `none` on a non-digit or
an empty list. -/
def digitsVal? : List Char → Option ℕ
  | [] => Option.none
  | cs => cs.foldl
      (fun acc c =>
        match acc with
        | Option.none => Option.none
        | Option.some n => if c.isDigit then Option.some (n * 10 + (c.toNat - 48)) else Option.none)
      (Option.some 0)

/-- ASCII whitespace, for the surrounding-whitespace tolerance of Python
numeric parsing. -/
def isSpaceChar (c : Char) : Bool :=
  c = ' ' ∨ c = '\t' ∨ c = '\n' ∨ c = '\r'

/-- Strip leading and trailing whitespace from a character list. -/
def trimChars (cs : List Char) : List Char :=
  ((cs.dropWhile isSpaceChar).reverse.dropWhile isSpaceChar).reverse

/-- Model of Python `float(s)` on strings: optional sign, integer part,
optional fractional part, surrounding whitespace tolerated.  (Exponents and
inf/nan literals are not modelled; no claim depends on them.) -/
def parseFloat? (s : String) : Option ℚ :=
  let cs := trimChars s.toList
  let (sign, cs) :=
    match cs with
    | '-' :: rest => ((-1 : ℚ), rest)
    | '+' :: rest => ((1 : ℚ), rest)
    | rest => ((1 : ℚ), rest)
  match cs.splitOn '.' with
  | [intPart] =>
      match digitsVal? intPart with
      | Option.some n => Option.some (sign * n)
      | Option.none => Option.none
  | [intPart, fracPart] =>
      -- Python accepts "1." and ".5"; both parts empty is invalid.
      if intPart.isEmpty ∧ fracPart.isEmpty then Option.none
      else
        match digitsVal? (if intPart.isEmpty then ['0'] else intPart),
              digitsVal? (if fracPart.isEmpty then ['0'] else fracPart) with
        | Option.some n, Option.some m =>
            Option.some (sign * (n + (m : ℚ) / ((10 : ℚ) ^ fracPart.length)))
        | _, _ => Option.none
  | _ => Option.none

/-- Model of Python `int(s)` on strings: optional sign and digits only. -/
def parseInt? (s : String) : Option ℤ :=
  let cs := trimChars s.toList
  let (sign, cs) :=
    match cs with
    | '-' :: rest => ((-1 : ℤ), rest)
    | '+' :: rest => ((1 : ℤ), rest)
    | rest => ((1 : ℤ), rest)
  match digitsVal? cs with
  | Option.some n => Option.some (sign * n)
  | Option.none => Option.none

/-- Model of Python `float(v)`: fails (raises) on `None`, class objects,
methods and non-numeric strings; booleans are ints in Python. -/
def pyFloat? : PyVal → Option ℚ
  | PyVal.none => Option.none
  | PyVal.bool b => Option.some (if b then 1 else 0)
  | PyVal.num q => Option.some q
  | PyVal.str s => parseFloat? s
  | PyVal.cls _ => Option.none
  | PyVal.method _ _ => Option.none

/-- Truncation toward zero, as Python `int()` does on floats. -/
def ratTrunc (q : ℚ) : ℤ := if 0 ≤ q then ⌊q⌋ else ⌈q⌉

/-- Model of Python `int(v)`: truncates numbers toward zero, parses integer
strings, fails on `None` and the rest. -/
def pyInt? : PyVal → Option ℤ
  | PyVal.none => Option.none
  | PyVal.bool b => Option.some (if b then 1 else 0)
  | PyVal.num q => Option.some (ratTrunc q)
  | PyVal.str s => parseInt? s
  | PyVal.cls _ => Option.none
  | PyVal.method _ _ => Option.none

/-- Python `str(v)` as used in f-strings.  Numeric rendering is simplified
(ints exact, non-integers rendered as fractions); no claim inspects the
rendered text of a number. -/
def pyStrOf : PyVal → String
  | PyVal.none => "None"
  | PyVal.bool b => if b then "True" else "False"
  | PyVal.num q => if q.den = 1 then toString q.num else toString q
  | PyVal.str s => s
  | PyVal.cls c => c
  | PyVal.method _ n => n

-- ==========================
-- Feature Sanitizer (core.patch_withdrawal_ratio, src/core.py lines 112-137)
-- ==========================

/-- The conversion step `x = float(x) if x is not None else None` of
`patch_withdrawal_ratio`: `None` passes through, other values must parse as a
float, a parse failure is a raised exception (`Except.error`). -/
def convOf (v : PyVal) : Except Unit (Option ℚ) :=
  match v with
  | PyVal.none => Except.ok Option.none
  | v =>
    match pyFloat? v with
    | Option.some q => Except.ok (Option.some q)
    | Option.none => Except.error ()

/-- Embedding of `core.patch_withdrawal_ratio`: derive a trustworthy withdrawal ratio and
a provenance tag; return the features unchanged when any of the three numeric
conversions raises. -/
def patch_withdrawal_ratio (features : Features) : Features :=
  match convOf (fget features "withdrawal_amount"),
        convOf (fget features "withdrawal_ratio"),
        convOf (fget features "total_balance_sum") with
  | Except.ok amt, Except.ok _ratio, Except.ok total =>
    if amt.isSome ∧ (total.isNone ∨ total.getD 0 ≤ 0) then
      fset (fset features "withdrawal_ratio" (PyVal.num 1))
        "withdrawal_ratio_source" (PyVal.str "UNKNOWN_BALANCE")
    else if amt.isSome ∧ total.isSome ∧ total.getD 0 < amt.getD 0 * (1/10) then
      fset (fset features "withdrawal_ratio" (PyVal.num 1))
        "withdrawal_ratio_source" (PyVal.str "SUSPICIOUS_TOTAL_BALANCE")
    else
      fset features "withdrawal_ratio_source" (PyVal.str "BALANCE_CACHE")
  | _, _, _ => features

-- ==========================
-- Python expression evaluation (model of the `eval` call in
-- core.evaluate_fixed_rules, src/core.py line 369)
-- ==========================

/-- Exceptions a rule expression can raise during evaluation. -/
inductive PyErr where
  | nameError : PyErr
  | attributeError : PyErr
  | typeError : PyErr
  | zeroDivision : PyErr
deriving DecidableEq, Repr

/-- Comparison operators of the expression language. -/
inductive CmpOp where
  | lt | le | gt | ge | eq | ne
deriving DecidableEq, Repr

/-- Arithmetic operators of the expression language. -/
inductive BinOp where
  | add | sub | mul | div
deriving DecidableEq, Repr

/-- Abstract syntax of stored rule expressions.  The source stores raw text
and passes it to Python `eval`; the embedding works on the parsed expression.
Crucially the grammar of what `eval` accepts includes attribute access and
calls, so the AST carries them too - whether evaluation then blocks them is a
property of the evaluator, not of the grammar. -/
inductive PyExpr where
  | lit (v : PyVal) : PyExpr
  | name (s : String) : PyExpr
  | attr (e : PyExpr) (a : String) : PyExpr
  | call (f : PyExpr) (args : List PyExpr) : PyExpr
  | bin (op : BinOp) (l r : PyExpr) : PyExpr
  | cmp (op : CmpOp) (l r : PyExpr) : PyExpr
  | boolAnd (l r : PyExpr) : PyExpr
  | boolOr (l r : PyExpr) : PyExpr
  | boolNot (e : PyExpr) : PyExpr
deriving Repr

/-- Numeric view: Python treats booleans as the ints 0 and 1. -/
def asNum : PyVal → Option ℚ
  | PyVal.bool b => Option.some (if b then 1 else 0)
  | PyVal.num q => Option.some q
  | _ => Option.none

/-- Type name of a value, as `__class__` reports it.  A rational with
denominator 1 is rendered as Python `int`, others as `float`. -/
def pyTypeName : PyVal → String
  | PyVal.none => "NoneType"
  | PyVal.bool _ => "bool"
  | PyVal.num q => if q.den = 1 then "int" else "float"
  | PyVal.str _ => "str"
  | PyVal.cls _ => "type"
  | PyVal.method _ _ => "builtin_function_or_method"

/-- Attribute lookup: `eval` does not restrict attribute access, so
`__class__` works on every value and string methods resolve to bound
methods.  Attributes outside the modelled fragment raise AttributeError
(an under-approximation of CPython, noted; no theorem relies on an
unmodelled attribute resolving). -/
def pyGetAttr (v : PyVal) (a : String) : Except PyErr PyVal :=
  if a = "__class__" then Except.ok (PyVal.cls (pyTypeName v))
  else
    match v with
    | PyVal.str s =>
      if a = "upper" ∨ a = "lower" then Except.ok (PyVal.method (PyVal.str s) a)
      else Except.error PyErr.attributeError
    | _ => Except.error PyErr.attributeError

/-- Calling a value: bound string methods work as in CPython (ASCII case
mapping); values outside the modelled fragment raise TypeError. -/
def pyCall (f : PyVal) (args : List PyVal) : Except PyErr PyVal :=
  match f, args with
  | PyVal.method (PyVal.str s) "upper", [] =>
    Except.ok (PyVal.str (String.mk (s.toList.map Char.toUpper)))
  | PyVal.method (PyVal.str s) "lower", [] =>
    Except.ok (PyVal.str (String.mk (s.toList.map Char.toLower)))
  | _, _ => Except.error PyErr.typeError

/-- Python `==` on the modelled values: numbers (and booleans) compare by
value, strings by content, mismatched types are unequal. -/
def pyEq (a b : PyVal) : Bool :=
  match asNum a, asNum b with
  | Option.some x, Option.some y => x = y
  | _, _ =>
    match a, b with
    | PyVal.str s, PyVal.str t => s = t
    | PyVal.none, PyVal.none => true
    | PyVal.cls c, PyVal.cls d => c = d
    | _, _ => false

/-- Comparison semantics: order comparisons need two numbers or two strings
(Python 3 raises TypeError on mixed order comparisons); equality never
raises. -/
def pyCompare (op : CmpOp) (a b : PyVal) : Except PyErr PyVal :=
  match op with
  | CmpOp.eq => Except.ok (PyVal.bool (pyEq a b))
  | CmpOp.ne => Except.ok (PyVal.bool (!pyEq a b))
  | _ =>
    match asNum a, asNum b with
    | Option.some x, Option.some y =>
      Except.ok (PyVal.bool (match op with
        | CmpOp.lt => decide (x < y)
        | CmpOp.le => decide (x ≤ y)
        | CmpOp.gt => decide (y < x)
        | CmpOp.ge => decide (y ≤ x)
        | _ => false))
    | _, _ =>
      match a, b with
      | PyVal.str s, PyVal.str t =>
        Except.ok (PyVal.bool (match op with
          | CmpOp.lt => decide (s < t)
          | CmpOp.le => decide (s ≤ t)
          | CmpOp.gt => decide (t < s)
          | CmpOp.ge => decide (t ≤ s)
          | _ => false))
      | _, _ => Except.error PyErr.typeError

/-- Arithmetic semantics on the modelled fragment: numbers (booleans as
ints) add/subtract/multiply/divide, strings concatenate with `+`; division
by zero raises; the rest raises TypeError. -/
def pyBinOp (op : BinOp) (a b : PyVal) : Except PyErr PyVal :=
  match asNum a, asNum b with
  | Option.some x, Option.some y =>
    match op with
    | BinOp.add => Except.ok (PyVal.num (x + y))
    | BinOp.sub => Except.ok (PyVal.num (x - y))
    | BinOp.mul => Except.ok (PyVal.num (x * y))
    | BinOp.div =>
      if y = 0 then Except.error PyErr.zeroDivision else Except.ok (PyVal.num (x / y))
  | _, _ =>
    match op, a, b with
    | BinOp.add, PyVal.str s, PyVal.str t => Except.ok (PyVal.str (s ++ t))
    | _, _, _ => Except.error PyErr.typeError

/-- Name resolution under `eval(logic, ..., safe_locals)` with globals
`{"__builtins__": None}`: locals first, then the globals dict (which binds
only `__builtins__`, to `None`); every other name - in particular every
built-in function - raises NameError. -/
def lookupName (sl : Features) (s : String) : Except PyErr PyVal :=
  match dictFind? sl s with
  | Option.some v => Except.ok v
  | Option.none =>
    if s = "__builtins__" then Except.ok PyVal.none else Except.error PyErr.nameError

mutual

/-- Evaluation of a rule expression against `safe_locals`, modelling the
`eval(logic, {"__builtins__": None}, safe_locals)` call.  `and`/`or`
short-circuit and return operand values as in Python. -/
def evalPy (sl : Features) : PyExpr → Except PyErr PyVal
  | PyExpr.lit v => Except.ok v
  | PyExpr.name s => lookupName sl s
  | PyExpr.attr e a => do pyGetAttr (← evalPy sl e) a
  | PyExpr.call f args => do
      let fv ← evalPy sl f
      let avs ← evalPyList sl args
      pyCall fv avs
  | PyExpr.bin op l r => do pyBinOp op (← evalPy sl l) (← evalPy sl r)
  | PyExpr.cmp op l r => do pyCompare op (← evalPy sl l) (← evalPy sl r)
  | PyExpr.boolAnd l r => do
      let lv ← evalPy sl l
      if truthy lv then evalPy sl r else Except.ok lv
  | PyExpr.boolOr l r => do
      let lv ← evalPy sl l
      if truthy lv then Except.ok lv else evalPy sl r
  | PyExpr.boolNot e => do Except.ok (PyVal.bool (!truthy (← evalPy sl e)))

/-- Left-to-right evaluation of call arguments. -/
def evalPyList (sl : Features) : List PyExpr → Except PyErr (List PyVal)
  | [] => Except.ok []
  | e :: es => do
      let v ← evalPy sl e
      let vs ← evalPyList sl es
      Except.ok (v :: vs)

end

-- ==========================
-- Rule Engine (core.evaluate_fixed_rules, src/core.py lines 358-384)
-- ==========================

/-- A row of `rt.risk_rules` as the worker consumes it.  `rule_id`,
`rule_name` and `narrative` are read with `.get` and may be null. -/
structure Rule where
  rule_id : PyVal
  rule_name : PyVal
  logic_expression : PyExpr
  action : String
  narrative : PyVal

/-- The dict built on a rule hit (src/core.py lines 371-380). -/
def mkRuleHit (r : Rule) : Features :=
  [("triggered", PyVal.bool true),
   ("decision", PyVal.str r.action),
   ("primary_threat", PyVal.str "RULE_HIT"),
   ("risk_score", PyVal.num 100),
   ("narrative", PyVal.str ("[Rule #" ++ pyStrOf r.rule_id ++ "] " ++ pyStrOf r.narrative)),
   ("rule_id", r.rule_id),
   ("rule_name", r.rule_name)]

/-- The `safe_locals` dict: every feature with null replaced by the int 0
(`0 if v is None else v`), built as a shadow copy. -/
def safeLocals (features : Features) : Features :=
  features.map (fun kv => (kv.1, if kv.2 = PyVal.none then PyVal.num 0 else kv.2))

/-- Whether a rule fires: its expression evaluates without raising and the
value is truthy.  A raising expression does not fire (it is skipped). -/
def ruleFires (sl : Features) (r : Rule) : Bool :=
  match evalPy sl r.logic_expression with
  | Except.ok v => truthy v
  | Except.error _ => false

/-- Inner loop of `evaluate_fixed_rules`: first firing rule wins, raising or
falsy rules are passed over. -/
def evalRulesLoop (sl : Features) : List Rule → Features
  | [] => [("triggered", PyVal.bool false)]
  | r :: rs =>
    match evalPy sl r.logic_expression with
    | Except.ok v => if truthy v then mkRuleHit r else evalRulesLoop sl rs
    | Except.error _ => evalRulesLoop sl rs

/-- Embedding of `core.evaluate_fixed_rules`: evaluate rules in list (priority) order over
`safe_locals`; return the first hit or `triggered=false`. -/
def evaluate_fixed_rules (features : Features) (rules : List Rule) : Features :=
  evalRulesLoop (safeLocals features) rules

-- ==========================
-- Decision Logger (core.log_decision_to_db, src/core.py lines 291-351)
-- ==========================

/-- The row the logger inserts into `rt.risk_withdraw_decision`.  The
features snapshot is kept as the dict itself (the source serialises it with
`json.dumps(..., default=str)`). -/
structure DecisionRow where
  user_code : String
  txn_id : String
  decision : PyVal
  primary_threat : PyVal
  confidence : ℚ
  narrative : PyVal
  features_snapshot : Features
  decision_source : String
  llm_reasoning : PyVal
  processing_time_ms : Option ℤ
deriving DecidableEq, Repr

/-- The confidence column as computed by the logger: an explicit confidence
value is parsed with `float(...)`, a parse failure falls back to 0.7; with no
confidence key the score derives it (`score/100` for a non-negative number,
1.0 otherwise).  Booleans count as numbers (`isinstance(score, (int, float))`
accepts `bool` since it subclasses `int`). -/
def loggedConfidence (result : Features) : ℚ :=
  if fmem result "confidence" then
    match pyFloat? (fget result "confidence") with
    | Option.some c => c
    | Option.none => 7/10
  else
    match fgetD result "risk_score" (PyVal.num 0) with
    | PyVal.num q => if 0 ≤ q then q / 100 else 1
    | PyVal.bool b => (if b then (1 : ℚ) else 0) / 100
    | _ => 1

/-- Embedding of `core.log_decision_to_db` as the row it inserts.  The `llm_reasoning`
column is assigned from the narrative (src/core.py line 315); a write
failure is swallowed in the source and does not change the computed row. -/
def log_decision_to_db (user_code txn_id : String) (result : Features)
    (features : Features) (source : String) (processing_time_ms : Option ℤ) :
    DecisionRow :=
  let narrative := fgetD result "narrative" (PyVal.str "")
  { user_code := user_code
    txn_id := txn_id
    decision := fgetD result "decision" (PyVal.str "HOLD")
    primary_threat := fgetD result "primary_threat" (PyVal.str "UNKNOWN")
    confidence := loggedConfidence result
    narrative := narrative
    features_snapshot := features
    decision_source := source
    llm_reasoning := narrative
    processing_time_ms := processing_time_ms }

-- ==========================
-- AI Escalation Client (core.call_gemini_reasoning_rest,
-- src/core.py lines 390-500)
-- ==========================

/-- The text of `candidates[0].content.parts[0]` after fence stripping:
either it parses as a JSON object (given as a flat dict) or `json.loads`
raises on it. -/
inductive ModelText where
  | malformed : ModelText
  | obj (o : Features) : ModelText

/-- One candidate of the Gemini response; only the part texts matter to the
worker. -/
structure Candidate where
  parts : List ModelText

/-- Body of an HTTP 2xx response: the `json.loads(response.read())` call
either raises or yields a candidates list. -/
inductive RespBody where
  | badJson : RespBody
  | json (candidates : List Candidate) : RespBody

/-- Outcome of one `urllib.request.urlopen(req, timeout=30)` call:
an `HTTPError`, any other raised exception (timeouts, connection errors,
read errors), or a response object with a status. -/
inductive NetOutcome where
  | httpError : NetOutcome
  | exn : NetOutcome
  | response (status : ℕ) (body : RespBody) : NetOutcome

/-- What one iteration of the attempt loop does after its network call:
return a parsed result, `break` out to the fallback, or sleep 0.5s and
retry. -/
inductive StepRes where
  | done (r : Features) : StepRes
  | stop : StepRes
  | retry : StepRes
deriving Repr

/-- Python `x or d`. -/
def pyOr (x d : PyVal) : PyVal := if truthy x then x else d

/-- Field extraction from the parsed model output (src/core.py lines
460-474): `int(...)`/`float(...)` coercions may raise, which the attempt
loop turns into a retry; the other fields default without coercion. -/
def coerceAiObj (o : Features) : Option Features := do
  let rs ← pyInt? (pyOr (fgetD o "risk_score" (PyVal.num 0)) (PyVal.num 0))
  let cf ← pyFloat? (pyOr (fgetD o "confidence" (PyVal.num (7/10))) (PyVal.num (7/10)))
  Option.some
    [("final_decision", fgetD o "final_decision" (PyVal.str "HOLD")),
     ("primary_threat", fgetD o "primary_threat" (PyVal.str "NONE")),
     ("risk_score", PyVal.num rs),
     ("confidence", PyVal.num cf),
     ("narrative", fgetD o "narrative" (PyVal.str "AI evaluation.")),
     ("rule_alignment", fgetD o "rule_alignment" (PyVal.str "AGREES_WITH_RULE"))]

/-- One iteration of the attempt loop (src/core.py lines 433-480): a raised
`HTTPError` or any other exception sleeps and retries; a non-200 status or an
empty candidates list `break`s to the fallback; a body or model text that
fails `json.loads`, a missing parts[0], and a failing field coercion all
raise inside the `try` and therefore also sleep and retry. -/
def stepOf (out : NetOutcome) : StepRes :=
  match out with
  | NetOutcome.httpError => StepRes.retry
  | NetOutcome.exn => StepRes.retry
  | NetOutcome.response status body =>
    if status ≠ 200 then StepRes.stop
    else
      match body with
      | RespBody.badJson => StepRes.retry
      | RespBody.json cands =>
        match cands with
        | [] => StepRes.stop
        | c :: _ =>
          match c.parts with
          | [] => StepRes.retry
          | t :: _ =>
            match t with
            | ModelText.malformed => StepRes.retry
            | ModelText.obj o =>
              match coerceAiObj o with
              | Option.some r => StepRes.done r
              | Option.none => StepRes.retry

/-- The attempt loop `for attempt in range(3)`, instrumented: returns the
successful result if any, the number of `urlopen` calls made, and the number
of 0.5s backoff sleeps. -/
def gemLoop (net : ℕ → NetOutcome) : ℕ → ℕ → Option Features × ℕ × ℕ
  | _, 0 => (Option.none, 0, 0)
  | i, n + 1 =>
    match stepOf (net i) with
    | StepRes.done r => (Option.some r, 1, 0)
    | StepRes.stop => (Option.none, 1, 0)
    | StepRes.retry =>
      let rest := gemLoop net (i + 1) n
      (rest.1, rest.2.1 + 1, rest.2.2 + 1)

/-- Instrumentation of the client run: how many network calls were made,
the timeout passed to each, and how many 0.5s backoff sleeps occurred. -/
structure NetTrace where
  calls : ℕ
  timeouts : List ℕ
  sleeps : ℕ
deriving DecidableEq, Repr

/-- The fallback returned with no credential configured (src/core.py lines
398-406). -/
def gemNoKeyFallback : Features :=
  [("final_decision", PyVal.str "HOLD"),
   ("primary_threat", PyVal.str "NONE"),
   ("risk_score", PyVal.num 0),
   ("confidence", PyVal.num (1/2)),
   ("narrative", PyVal.str "AI config missing. Keeping HOLD for manual review."),
   ("rule_alignment", PyVal.str "AGREES_WITH_RULE")]

/-- The fallback returned when the attempt loop ends without a result
(src/core.py lines 483-490). -/
def gemNetErrFallback : Features :=
  [("final_decision", PyVal.str "HOLD"),
   ("primary_threat", PyVal.str "AI_NET_ERR"),
   ("risk_score", PyVal.num (-1)),
   ("confidence", PyVal.num (1/2)),
   ("narrative", PyVal.str "AI unavailable or invalid response. Keeping HOLD for manual review."),
   ("rule_alignment", PyVal.str "AGREES_WITH_RULE")]

/-- Embedding of `core.call_gemini_reasoning_rest`: with a blank API key (the falsy
`cfg.GEMINI_API_KEY`) return the deterministic fallback and touch the
network zero times; otherwise run the 3-attempt loop, every call with
timeout 30, and fall back to the AI_NET_ERR result when no attempt returns.
The features and rule context only shape the request payload, which the
network oracle abstracts over. -/
def call_gemini_reasoning_rest (apiKey : String) (net : ℕ → NetOutcome)
    (_features : Features) (_rule_context : Features) : Features × NetTrace :=
  if apiKey = "" then (gemNoKeyFallback, ⟨0, [], 0⟩)
  else
    let run := gemLoop net 0 3
    (run.1.getD gemNetErrFallback, ⟨run.2.1, List.replicate run.2.1 30, run.2.2⟩)

-- ==========================
-- Enrichment Poller (core.refresh_sanctions_and_age, src/core.py lines 139-214)
-- ==========================

/-- A row of `rt.dim_sanctions_address`: `(is_sanctioned, sanctions_status)`. -/
def SancRow := PyVal × PyVal

/-- A row of `rt.dim_destination_age`: `(destination_age_hours, age_status)`. -/
def AgeRow := PyVal × PyVal

/-- The enrichment store as the poller sees it: per attempt, the two
`SELECT ... fetchone()` results. -/
def EnrichStore := ℕ → Option SancRow × Option AgeRow

/-- The polling loop of `refresh_sanctions_and_age`, instrumented with the
number of store reads (two per attempt) and the number of `delay`-second
sleeps.  The sanctions update of an attempt is applied before the age
update; a failing `int(dest_age_hours)` raises out of the loop (caught by
the outer `except`) with the sanctions update of that attempt already in
place.  A successful update breaks without sleeping; an attempt without an
update sleeps, including the last one. -/
def refreshLoop (store : EnrichStore) : Features → ℕ → ℕ → Features × ℕ × ℕ
  | f, _, 0 => (f, 0, 0)
  | f, i, n + 1 =>
    let rows := store i
    let sanc :=
      match rows.1 with
      | Option.some (iss, st) =>
        if pyEq st (PyVal.str "CHECKED") then
          (fset (fset f "is_sanctioned" (PyVal.bool (truthy iss))) "sanctions_status" st, true)
        else (f, false)
      | Option.none => (f, false)
    match rows.2 with
    | Option.some (ageh, ast) =>
      if pyEq ast (PyVal.str "CHECKED") then
        match pyInt? ageh with
        | Option.some z =>
          (fset (fset sanc.1 "destination_age_hours" (PyVal.num z)) "age_status" ast, 2, 0)
        | Option.none => (sanc.1, 2, 0)
      else if sanc.2 then (sanc.1, 2, 0)
      else
        let rest := refreshLoop store sanc.1 (i + 1) n
        (rest.1, rest.2.1 + 2, rest.2.2 + 1)
    | Option.none =>
      if sanc.2 then (sanc.1, 2, 0)
      else
        let rest := refreshLoop store sanc.1 (i + 1) n
        (rest.1, rest.2.1 + 2, rest.2.2 + 1)

/-- Embedding of `core.refresh_sanctions_and_age`: returns the (possibly updated)
features together with the number of store reads and sleeps performed.
Missing or falsy chain/address, or both statuses already CHECKED, short-
circuit before any store access. -/
def refresh_sanctions_and_age (features : Features) (store : EnrichStore)
    (max_wait : ℕ) : Features × ℕ × ℕ :=
  if !truthy (fget features "chain") || !truthy (fget features "destination_address") then
    (features, 0, 0)
  else if pyEq (fget features "sanctions_status") (PyVal.str "CHECKED")
      && pyEq (fget features "age_status") (PyVal.str "CHECKED") then
    (features, 0, 0)
  else refreshLoop store features 0 max_wait

-- ==========================
-- Escalation Scheduler (index._process_single_txn and index.handler,
-- src/index.py lines 59-183)
-- ==========================

/-- Modelled from the spec: `core.fetch_phase1_hold_narrative` is called at
src/index.py line 87 but has no definition under src/; spec section 4.6 step
5 describes it as "a stored Phase-1 narrative lookup", so it is modelled as
returning the stored narrative when one exists. -/
def fetch_phase1_hold_narrative (stored : Option String) : Option String :=
  stored

/-- Modelled from the spec: `core.build_behavior_context` is called at
src/index.py line 91 but has no definition under src/; spec section 4.4
describes the behavior context only as an optional part of the AI case
payload ("builds rich behavior context (single query)"), so it is modelled
as an opaque value handed to the AI call. -/
def build_behavior_context (_user_code : String) (_features : Features)
    (stored : PyVal) : PyVal :=
  stored

/-- Modelled from the spec: the AI call as the scheduler invokes it, with the
`behavior_context` keyword of spec section 4.4 (`escalate(features,
rule_context, behavior_context)`); the in-src `call_gemini_reasoning_rest`
body takes only features and rule context, and the behavior context shapes
nothing but the request payload, which the network oracle abstracts over. -/
def escalate (apiKey : String) (net : ℕ → NetOutcome) (features : Features)
    (rule_context : Features) (_behavior_context : PyVal) : Features × NetTrace :=
  call_gemini_reasoning_rest apiKey net features rule_context

/-- The joined chain-of-thought string of src/index.py lines 107-112.  The
dict returned by the AI client never carries a `chain_of_thought` key, so the
live branch is the `[]` default, whose join is the empty string; a non-list
value goes through `str(...)`. -/
def cotString (ai_raw : Features) : String :=
  match dictFind? ai_raw "chain_of_thought" with
  | Option.none => ""
  | Option.some v => pyStrOf v

/-- External collaborators of one `_process_single_txn` run: the feature
fetch result, the enrichment store, the rule set, the stored Phase-1
narrative, the stored behavior context, the network, the configured API key
and the measured AI latency. -/
structure WorkerEnv where
  fetchFeatures : Option Features
  store : EnrichStore
  rules : List Rule
  phase1Narr : Option String
  behaviorCtx : PyVal
  net : ℕ → NetOutcome
  apiKey : String
  aiMs : ℤ

/-- Embedding of `index._process_single_txn`: fetch features (skip when missing or
empty), enrich, sanitise, re-evaluate rules for context (falling back to the
Phase-1 narrative or a bare HOLD context), call the AI, and log the decision
with source AI_AGENT_REVIEW.  Returns the success flag and the logged row. -/
def process_single_txn (env : WorkerEnv) (user_code txn_id : String) :
    Bool × Option DecisionRow :=
  match env.fetchFeatures with
  | Option.none => (false, Option.none)
  | Option.some f0 =>
    if f0 = [] then (false, Option.none)
    else
      let f1 := fset (fset f0 "user_code" (PyVal.str user_code)) "txn_id" (PyVal.str txn_id)
      let f2 := (refresh_sanctions_and_age f1 env.store 5).1
      let f3 := patch_withdrawal_ratio f2
      let rc0 := evaluate_fixed_rules f3 env.rules
      let rc :=
        if truthy (fget rc0 "triggered") then rc0
        else
          match fetch_phase1_hold_narrative env.phase1Narr with
          | Option.some narr =>
            [("decision", PyVal.str "HOLD"), ("narrative", PyVal.str narr)]
          | Option.none => [("decision", PyVal.str "HOLD")]
      let bc := build_behavior_context user_code f3 env.behaviorCtx
      let ai_raw := (escalate env.apiKey env.net f3 rc bc).1
      let result : Features :=
        [("decision", fgetD ai_raw "final_decision" (PyVal.str "HOLD")),
         ("primary_threat", fgetD ai_raw "primary_threat" (PyVal.str "NONE")),
         ("risk_score", fgetD ai_raw "risk_score" (PyVal.num 0)),
         ("confidence", fgetD ai_raw "confidence" (PyVal.num (7/10))),
         ("narrative", fgetD ai_raw "narrative" (PyVal.str "AI evaluation.")),
         ("llm_reasoning", PyVal.str (cotString ai_raw))]
      let row := log_decision_to_db user_code txn_id result f3 "AI_AGENT_REVIEW"
        (Option.some env.aiMs)
      (true, Option.some row)

/-- An exception escaping one per-transaction processing run. -/
def PyExn := String

/-- What the batch handler returns. -/
structure HandlerResult where
  statusCode : ℕ
  body : String
deriving DecidableEq, Repr

/-- The batch loop of `index.handler`: every pair is attempted; a raised
exception is caught, logged and does not stop the loop; only a `True`
return increments the counter.  Returns the counter and the list of
attempted pairs. -/
def handlerLoop (proc : String → String → Except PyExn Bool) :
    List (String × String) → ℕ × List (String × String)
  | [] => (0, [])
  | (uc, tid) :: rest =>
    let inc :=
      match proc uc tid with
      | Except.ok true => 1
      | Except.ok false => 0
      | Except.error _ => 0
    let r := handlerLoop proc rest
    (inc + r.1, (uc, tid) :: r.2)

/-- Embedding of `index.handler`: run the batch loop over the selected pending pairs and
report the count of completed transactions.  Returns the HTTP-style result
and the attempted-pairs trace. -/
def handler (pairs : List (String × String))
    (proc : String → String → Except PyExn Bool) :
    HandlerResult × List (String × String) :=
  let run := handlerLoop proc pairs
  ({ statusCode := 200,
     body := "AI worker processed " ++ toString run.1 ++ " transactions." },
   run.2)

-- ==========================
-- Helper lemmas
-- ==========================

/-- Writing one key leaves the lookup of every other key unchanged. -/
theorem dictFind?_fset_ne (f : Features) (k k' : String) (v : PyVal)
    (h : k' ≠ k) : dictFind? (fset f k v) k' = dictFind? f k' := by
  induction f with
  | nil => simp [fset, dictFind?, List.find?, Ne.symm h]
  | cons kv rest ih =>
    obtain ⟨k0, v0⟩ := kv
    by_cases hk : k0 = k
    · subst hk
      simp [fset, dictFind?, List.find?, Ne.symm h]
    · by_cases hk' : k0 = k'
      · subst hk'
        simp [fset, if_neg hk, dictFind?, List.find?]
      · have ih' := ih
        simp only [dictFind?] at ih' ⊢
        simp [fset, if_neg hk, List.find?, hk', ih']

/-- The batch loop attempts every pair and counts exactly the pairs whose
processing returned `True`. -/
theorem handlerLoop_spec (proc : String → String → Except PyExn Bool)
    (pairs : List (String × String)) :
    handlerLoop proc pairs =
      ((pairs.filter (fun p =>
          match proc p.1 p.2 with
          | Except.ok true => true
          | _ => false)).length, pairs) := by
  induction pairs with
  | nil => rfl
  | cons p rest ih =>
    obtain ⟨uc, tid⟩ := p
    simp only [handlerLoop, ih, List.filter]
    rcases h : proc uc tid with e | b
    · simp [h]
    · cases b <;> simp [h, Nat.add_comm]

/-- The rule loop returns the hit of the first firing rule, else
`triggered=false`. -/
theorem evalRulesLoop_spec (sl : Features) (rules : List Rule) :
    evalRulesLoop sl rules =
      match rules.find? (ruleFires sl) with
      | Option.some r => mkRuleHit r
      | Option.none => [("triggered", PyVal.bool false)] := by
  induction rules with
  | nil => rfl
  | cons r rest ih =>
    simp only [evalRulesLoop, List.find?]
    rcases h : evalPy sl r.logic_expression with e | v
    · have : ruleFires sl r = false := by simp [ruleFires, h]
      simp [this, ih]
    · rcases ht : truthy v with _ | _
      · have : ruleFires sl r = false := by simp [ruleFires, h, ht]
        simp [ht, this, ih]
      · have : ruleFires sl r = true := by simp [ruleFires, h, ht]
        simp [ht, this]

/-- The attempt loop makes at most as many network calls as it has attempts
left. -/
theorem gemLoop_calls_le (net : ℕ → NetOutcome) (i n : ℕ) :
    (gemLoop net i n).2.1 ≤ n := by
  induction n generalizing i with
  | zero => simp [gemLoop]
  | succ m ih =>
    simp only [gemLoop]
    rcases stepOf (net i) with r | _ | _
    · simp
    · simp
    · simpa using Nat.succ_le_succ (ih (i + 1))

-- ==========================
-- Claim theorems
-- ==========================

/-- Claim C2: for every batch invocation and selection of pending pairs, an
exception raised while processing one transaction is caught inside the loop
and every remaining pair is still attempted (the attempted-pairs trace is
the whole selection), and the returned summary reports status 200 with a
count of exactly the pairs whose per-transaction processing returned
success. -/
theorem c2_handler_isolation_and_count (pairs : List (String × String))
    (proc : String → String → Except PyExn Bool) :
    (handler pairs proc).1.statusCode = 200 ∧
    (handler pairs proc).2 = pairs ∧
    (handler pairs proc).1.body =
      "AI worker processed " ++
        toString ((pairs.filter (fun p =>
          match proc p.1 p.2 with
          | Except.ok true => true
          | _ => false)).length) ++ " transactions." := by
  refine ⟨rfl, ?_, ?_⟩ <;> simp [handler, handlerLoop_spec]

/-- Claim C4: rule evaluation returns the hit record (action as decision,
rule id, name and formatted narrative) of the first rule in list order whose
expression evaluates truthy; a rule whose expression raises or evaluates
falsy is passed over and later rules are still evaluated; the evaluation
function is total and yields either a hit or `triggered=false`. -/
theorem c4_evaluate_first_hit (features : Features) (rules : List Rule) :
    evaluate_fixed_rules features rules =
      match rules.find? (ruleFires (safeLocals features)) with
      | Option.some r => mkRuleHit r
      | Option.none => [("triggered", PyVal.bool false)] :=
  evalRulesLoop_spec (safeLocals features) rules

/-- Claim C6: with no model credential configured (blank API key) the AI
escalation call returns exactly the deterministic fallback - decision HOLD,
threat NONE, score 0, confidence 0.5, the missing-configuration narrative
and rule alignment AGREES_WITH_RULE - and records zero network invocations. -/
theorem c6_no_credential_fallback (net : ℕ → NetOutcome)
    (features rule_context : Features) :
    call_gemini_reasoning_rest "" net features rule_context =
      ([("final_decision", PyVal.str "HOLD"),
        ("primary_threat", PyVal.str "NONE"),
        ("risk_score", PyVal.num 0),
        ("confidence", PyVal.num (1/2)),
        ("narrative", PyVal.str "AI config missing. Keeping HOLD for manual review."),
        ("rule_alignment", PyVal.str "AGREES_WITH_RULE")],
       { calls := 0, timeouts := [], sleeps := 0 }) := rfl

/-- Claim C10: the logger persists the result narrative in the
`llm_reasoning` column, and a caller-supplied `llm_reasoning` entry (such as
the joined chain-of-thought string the worker builds) never changes the
persisted row. -/
theorem c10_llm_reasoning_is_narrative (uc tid : String)
    (result features : Features) (source : String) (ms : Option ℤ)
    (v : PyVal) :
    (log_decision_to_db uc tid result features source ms).llm_reasoning =
      (log_decision_to_db uc tid result features source ms).narrative ∧
    (log_decision_to_db uc tid result features source ms).narrative =
      fgetD result "narrative" (PyVal.str "") ∧
    log_decision_to_db uc tid (fset result "llm_reasoning" v) features source ms =
      log_decision_to_db uc tid result features source ms := by
  refine ⟨rfl, rfl, ?_⟩
  have h : ∀ k : String, k ≠ "llm_reasoning" →
      dictFind? (fset result "llm_reasoning" v) k = dictFind? result k :=
    fun k hk => dictFind?_fset_ne result "llm_reasoning" k v hk
  simp only [log_decision_to_db, loggedConfidence, fgetD, fget, fmem,
    h "narrative" (by decide), h "decision" (by decide),
    h "primary_threat" (by decide), h "confidence" (by decide),
    h "risk_score" (by decide)]

/-- Claim C3: the withdrawal-ratio sanitizer overwrites the ratio with 1.0
and tags UNKNOWN_BALANCE when the amount is present and parseable and the
total balance is missing or non-positive; tags SUSPICIOUS_TOTAL_BALANCE with
ratio 1.0 when the amount is present and the total balance is positive but
below a tenth of the amount; otherwise leaves the ratio untouched and tags
BALANCE_CACHE; and returns the features unmodified (no exception escaping)
when any of the three numeric conversions fails. -/
theorem c3_patch_withdrawal_ratio_cases (f : Features) :
    ((convOf (fget f "withdrawal_amount") = Except.error () ∨
      convOf (fget f "withdrawal_ratio") = Except.error () ∨
      convOf (fget f "total_balance_sum") = Except.error ()) →
        patch_withdrawal_ratio f = f) ∧
    (∀ amt rv tv,
      convOf (fget f "withdrawal_amount") = Except.ok amt →
      convOf (fget f "withdrawal_ratio") = Except.ok rv →
      convOf (fget f "total_balance_sum") = Except.ok tv →
      (∀ a, amt = Option.some a →
        ((tv = Option.none ∨ ∃ t, tv = Option.some t ∧ t ≤ 0) →
          patch_withdrawal_ratio f =
            fset (fset f "withdrawal_ratio" (PyVal.num 1))
              "withdrawal_ratio_source" (PyVal.str "UNKNOWN_BALANCE")) ∧
        (∀ t, tv = Option.some t → 0 < t → t < a * (1/10) →
          patch_withdrawal_ratio f =
            fset (fset f "withdrawal_ratio" (PyVal.num 1))
              "withdrawal_ratio_source" (PyVal.str "SUSPICIOUS_TOTAL_BALANCE")) ∧
        (∀ t, tv = Option.some t → 0 < t → ¬ t < a * (1/10) →
          patch_withdrawal_ratio f =
            fset f "withdrawal_ratio_source" (PyVal.str "BALANCE_CACHE"))) ∧
      (amt = Option.none →
        patch_withdrawal_ratio f =
          fset f "withdrawal_ratio_source" (PyVal.str "BALANCE_CACHE"))) := by
  constructor
  · intro h
    rcases hA : convOf (fget f "withdrawal_amount") with u | amt <;>
      rcases hR : convOf (fget f "withdrawal_ratio") with u' | rv <;>
        rcases hT : convOf (fget f "total_balance_sum") with u'' | tv <;>
          simp only [patch_withdrawal_ratio, hA, hR, hT]
    rcases h with h | h | h
    · rw [hA] at h; exact absurd h (by simp)
    · rw [hR] at h; exact absurd h (by simp)
    · rw [hT] at h; exact absurd h (by simp)
  · intro amt rv tv hA hR hT
    simp only [patch_withdrawal_ratio, hA, hR, hT]
    refine ⟨fun a ha => ?_, fun ha => ?_⟩
    · subst ha
      refine ⟨fun hcase => ?_, fun t htv h0 hlt => ?_, fun t htv h0 hge => ?_⟩
      · rw [if_pos]
        refine ⟨rfl, ?_⟩
        rcases hcase with h | ⟨t, htv, ht⟩
        · subst h; exact Or.inl rfl
        · subst htv; exact Or.inr ht
      · subst htv
        rw [if_neg, if_pos]
        · exact ⟨rfl, rfl, by simpa using hlt⟩
        · rintro ⟨-, h | h⟩
          · exact absurd h (by simp)
          · exact absurd (by simpa using h) (not_le.mpr h0)
      · subst htv
        rw [if_neg, if_neg]
        · rintro ⟨-, -, h⟩
          exact hge (by simpa using h)
        · rintro ⟨-, h | h⟩
          · exact absurd h (by simp)
          · exact absurd (by simpa using h) (not_le.mpr h0)
    · subst ha
      rw [if_neg, if_neg]
      · rintro ⟨h, -⟩
        exact absurd h (by simp)
      · rintro ⟨h, -⟩
        exact absurd h (by simp)

/-- Witness for C3: concrete features exercising every branch - zero balance
gives UNKNOWN_BALANCE, a tiny balance gives SUSPICIOUS_TOTAL_BALANCE, a
plausible balance keeps the stored ratio with BALANCE_CACHE, and an
unparseable amount leaves the features unmodified. -/
theorem c3_patch_withdrawal_ratio_cases_witness :
    patch_withdrawal_ratio
        [("withdrawal_amount", PyVal.num 1000), ("total_balance_sum", PyVal.num 0)] =
      fset (fset [("withdrawal_amount", PyVal.num 1000), ("total_balance_sum", PyVal.num 0)]
          "withdrawal_ratio" (PyVal.num 1))
        "withdrawal_ratio_source" (PyVal.str "UNKNOWN_BALANCE") ∧
    patch_withdrawal_ratio
        [("withdrawal_amount", PyVal.num 1000), ("total_balance_sum", PyVal.num 50)] =
      fset (fset [("withdrawal_amount", PyVal.num 1000), ("total_balance_sum", PyVal.num 50)]
          "withdrawal_ratio" (PyVal.num 1))
        "withdrawal_ratio_source" (PyVal.str "SUSPICIOUS_TOTAL_BALANCE") ∧
    patch_withdrawal_ratio
        [("withdrawal_amount", PyVal.num 1000), ("total_balance_sum", PyVal.num 500)] =
      fset [("withdrawal_amount", PyVal.num 1000), ("total_balance_sum", PyVal.num 500)]
        "withdrawal_ratio_source" (PyVal.str "BALANCE_CACHE") ∧
    patch_withdrawal_ratio [("withdrawal_amount", PyVal.str "abc")] =
      [("withdrawal_amount", PyVal.str "abc")] := by
  refine ⟨?_, ?_, ?_, ?_⟩
  · exact (((c3_patch_withdrawal_ratio_cases
      [("withdrawal_amount", PyVal.num 1000), ("total_balance_sum", PyVal.num 0)]).2
      (Option.some 1000) Option.none (Option.some 0) rfl rfl rfl).1 1000 rfl).1
      (Or.inr ⟨0, rfl, le_refl 0⟩)
  · exact (((c3_patch_withdrawal_ratio_cases
      [("withdrawal_amount", PyVal.num 1000), ("total_balance_sum", PyVal.num 50)]).2
      (Option.some 1000) Option.none (Option.some 50) rfl rfl rfl).1 1000 rfl).2.1
      50 rfl (by norm_num) (by norm_num)
  · exact (((c3_patch_withdrawal_ratio_cases
      [("withdrawal_amount", PyVal.num 1000), ("total_balance_sum", PyVal.num 500)]).2
      (Option.some 1000) Option.none (Option.some 500) rfl rfl rfl).1 1000 rfl).2.2
      500 rfl (by norm_num) (by norm_num)
  · exact (c3_patch_withdrawal_ratio_cases
      [("withdrawal_amount", PyVal.str "abc")]).1 (Or.inl rfl)

/-- Claim C9: with both enrichment statuses already CHECKED, or with the
chain or destination address absent, the enrichment poller returns the
features unchanged at once, with zero store reads and zero sleeps. -/
theorem c9_enrichment_short_circuit (f : Features) (store : EnrichStore)
    (max_wait : ℕ)
    (h : (fget f "sanctions_status" = PyVal.str "CHECKED" ∧
          fget f "age_status" = PyVal.str "CHECKED") ∨
         fget f "chain" = PyVal.none ∨
         fget f "destination_address" = PyVal.none) :
    refresh_sanctions_and_age f store max_wait = (f, 0, 0) := by
  rcases h with ⟨h1, h2⟩ | h | h
  · by_cases hc : (!truthy (fget f "chain") || !truthy (fget f "destination_address")) = true
    · simp [refresh_sanctions_and_age, hc]
    · simp [refresh_sanctions_and_age, hc, h1, h2, pyEq, asNum]
  · simp [refresh_sanctions_and_age, h, truthy]
  · simp [refresh_sanctions_and_age, h, truthy]

/-- Witness for C9: a transaction already fully enriched, and one with no
chain recorded, both pass through untouched with an untouched store. -/
theorem c9_enrichment_short_circuit_witness :
    refresh_sanctions_and_age
      [("chain", PyVal.str "ETH"), ("destination_address", PyVal.str "0xabc"),
       ("sanctions_status", PyVal.str "CHECKED"), ("age_status", PyVal.str "CHECKED")]
      (fun _ => (Option.none, Option.none)) 5 =
      ([("chain", PyVal.str "ETH"), ("destination_address", PyVal.str "0xabc"),
        ("sanctions_status", PyVal.str "CHECKED"), ("age_status", PyVal.str "CHECKED")],
       0, 0) ∧
    refresh_sanctions_and_age [("destination_address", PyVal.str "0xabc")]
      (fun _ => (Option.none, Option.none)) 5 =
      ([("destination_address", PyVal.str "0xabc")], 0, 0) := by
  constructor
  · exact c9_enrichment_short_circuit _ _ _ (Or.inl ⟨rfl, rfl⟩)
  · exact c9_enrichment_short_circuit _ _ _ (Or.inr (Or.inl rfl))

/-- A stored expression that performs both an attribute access and a
function call: `("ABC").lower() == "abc"`.  CPython `eval` with globals
`{"__builtins__": None}` evaluates it without error. -/
def sandboxProbeExpr : PyExpr :=
  PyExpr.cmp CmpOp.eq
    (PyExpr.call (PyExpr.attr (PyExpr.lit (PyVal.str "ABC")) "lower") [])
    (PyExpr.lit (PyVal.str "abc"))

/-- A rule whose logic is `sandboxProbeExpr`. -/
def sandboxProbeRule : Rule :=
  { rule_id := PyVal.num 99
    rule_name := PyVal.str "probe"
    logic_expression := sandboxProbeExpr
    action := "PASS"
    narrative := PyVal.str "expression with an attribute access and a call" }

/-- Counterexample for C5: the claim says a stored expression cannot perform
function calls or attribute access during evaluation.  In fact the `eval`
sandbox only removes built-ins: `(1).__class__` resolves, and the rule whose
expression is `("ABC").lower() == "abc"` - an attribute access followed by a
call - evaluates truthy and fires, steering the decision. -/
theorem c5_sandbox_counterexample :
    evalPy [] (PyExpr.attr (PyExpr.lit (PyVal.num 1)) "__class__") =
      Except.ok (PyVal.cls "int") ∧
    evalPy [] sandboxProbeExpr = Except.ok (PyVal.bool true) ∧
    evaluate_fixed_rules [] [sandboxProbeRule] = mkRuleHit sandboxProbeRule := by
  refine ⟨rfl, rfl, rfl⟩

/-- Claim C5 as amended: rule expressions are evaluated with no built-ins
available - a top-level name that is not a feature of `safe_locals` (and is
not `__builtins__`) raises NameError, while feature names read their values;
but the evaluation does not prevent attribute access or function calls
inside the expression (shown by the counterexample). -/
theorem c5_sandbox_amended (sl : Features) (s t : String) (v : PyVal)
    (hmiss : dictFind? sl s = Option.none) (hnb : s ≠ "__builtins__")
    (hfeat : dictFind? sl t = Option.some v) :
    evalPy sl (PyExpr.name s) = Except.error PyErr.nameError ∧
    evalPy sl (PyExpr.name t) = Except.ok v := by
  constructor
  · simp [evalPy, lookupName, hmiss, hnb]
  · simp [evalPy, lookupName, hfeat]

/-- Witness for the amended C5: with only `withdrawal_amount` in scope, the
built-in name `open` raises NameError while the feature name reads its
value. -/
theorem c5_sandbox_amended_witness :
    evalPy [("withdrawal_amount", PyVal.num 5)] (PyExpr.name "open") =
      Except.error PyErr.nameError ∧
    evalPy [("withdrawal_amount", PyVal.num 5)] (PyExpr.name "withdrawal_amount") =
      Except.ok (PyVal.num 5) :=
  c5_sandbox_amended [("withdrawal_amount", PyVal.num 5)] "open"
    "withdrawal_amount" (PyVal.num 5) rfl (by decide) rfl

/-- Counterexample for C8: the claim says that without a parseable supplied
confidence the persisted confidence is risk_score/100 (for a non-negative
score).  With confidence supplied but unparseable and risk_score 50, the
logger persists 0.7, not 50/100. -/
theorem c8_confidence_counterexample :
    (log_decision_to_db "u" "t"
        [("confidence", PyVal.str "abc"), ("risk_score", PyVal.num 50)]
        [] "AI_AGENT_REVIEW" Option.none).confidence = 7/10 ∧
    (7 : ℚ)/10 ≠ 50/100 := by
  exact ⟨rfl, by norm_num⟩

/-- Claim C8 as amended: the persisted confidence is `float(confidence)`
when the supplied confidence parses; 0.7 when a confidence is supplied but
does not parse; and with no confidence supplied it is risk_score/100 for a
numeric score ≥ 0 (booleans counting as 0/1), 1.0 for a numeric score < 0
and 1.0 for a non-numeric score - so the -1 sentinel never yields a
negative confidence. -/
theorem c8_confidence_amended (uc tid : String) (result features : Features)
    (source : String) (ms : Option ℤ) :
    (∀ c q, dictFind? result "confidence" = Option.some c →
      pyFloat? c = Option.some q →
      (log_decision_to_db uc tid result features source ms).confidence = q) ∧
    (∀ c, dictFind? result "confidence" = Option.some c →
      pyFloat? c = Option.none →
      (log_decision_to_db uc tid result features source ms).confidence = 7/10) ∧
    (dictFind? result "confidence" = Option.none →
      (∀ q, fgetD result "risk_score" (PyVal.num 0) = PyVal.num q → 0 ≤ q →
        (log_decision_to_db uc tid result features source ms).confidence = q / 100) ∧
      (∀ q, fgetD result "risk_score" (PyVal.num 0) = PyVal.num q → q < 0 →
        (log_decision_to_db uc tid result features source ms).confidence = 1) ∧
      (∀ b, fgetD result "risk_score" (PyVal.num 0) = PyVal.bool b →
        (log_decision_to_db uc tid result features source ms).confidence =
          (if b then (1 : ℚ) else 0) / 100) ∧
      (∀ v, fgetD result "risk_score" (PyVal.num 0) = v → asNum v = Option.none →
        (log_decision_to_db uc tid result features source ms).confidence = 1)) := by
  refine ⟨fun c q hc hq => ?_, fun c hc hq => ?_, fun hc => ⟨?_, ?_, ?_, ?_⟩⟩
  · simp [log_decision_to_db, loggedConfidence, fmem, fget, hc, hq]
  · simp [log_decision_to_db, loggedConfidence, fmem, fget, hc, hq]
  · intro q hq h0
    simp [log_decision_to_db, loggedConfidence, fmem, fget, hc, hq, h0]
  · intro q hq h0
    simp [log_decision_to_db, loggedConfidence, fmem, fget, hc, hq,
      not_le.mpr h0]
  · intro b hb
    simp [log_decision_to_db, loggedConfidence, fmem, fget, hc, hb]
  · intro v hv hn
    cases v <;> simp_all [log_decision_to_db, loggedConfidence, fmem, fget, asNum]

/-- Witness for the amended C8: a parseable confidence is persisted as-is;
an unparseable one gives 0.7; with no confidence a score of 50 gives 0.5,
the -1 sentinel gives 1.0, and a non-numeric score gives 1.0. -/
theorem c8_confidence_amended_witness :
    (log_decision_to_db "u" "t" [("confidence", PyVal.num (9/10))] [] "S"
      Option.none).confidence = 9/10 ∧
    (log_decision_to_db "u" "t" [("confidence", PyVal.str "x")] [] "S"
      Option.none).confidence = 7/10 ∧
    (log_decision_to_db "u" "t" [("risk_score", PyVal.num 50)] [] "S"
      Option.none).confidence = 50 / 100 ∧
    (log_decision_to_db "u" "t" [("risk_score", PyVal.num (-1))] [] "S"
      Option.none).confidence = 1 ∧
    (log_decision_to_db "u" "t" [("risk_score", PyVal.str "x")] [] "S"
      Option.none).confidence = 1 := by
  refine ⟨?_, ?_, ?_, ?_, ?_⟩
  · exact (c8_confidence_amended "u" "t" [("confidence", PyVal.num (9/10))] []
      "S" Option.none).1 (PyVal.num (9/10)) (9/10) rfl rfl
  · exact (c8_confidence_amended "u" "t" [("confidence", PyVal.str "x")] []
      "S" Option.none).2.1 (PyVal.str "x") rfl rfl
  · exact ((c8_confidence_amended "u" "t" [("risk_score", PyVal.num 50)] []
      "S" Option.none).2.2 rfl).1 50 rfl (by norm_num)
  · exact ((c8_confidence_amended "u" "t" [("risk_score", PyVal.num (-1))] []
      "S" Option.none).2.2 rfl).2.1 (-1) rfl (by norm_num)
  · exact ((c8_confidence_amended "u" "t" [("risk_score", PyVal.str "x")] []
      "S" Option.none).2.2 rfl).2.2.2 (PyVal.str "x") rfl rfl

/-- A network where attempt 1 returns HTTP 200 with candidates whose model
text fails `json.loads`, and every later attempt returns a well-formed PASS
response. -/
def mtNet : ℕ → NetOutcome := fun n =>
  match n with
  | 0 => NetOutcome.response 200 (RespBody.json [⟨[ModelText.malformed]⟩])
  | _ => NetOutcome.response 200 (RespBody.json
      [⟨[ModelText.obj
          [("final_decision", PyVal.str "PASS"),
           ("risk_score", PyVal.num 10),
           ("confidence", PyVal.num 1)]]⟩])

/-- The parsed result of the PASS response of `mtNet`. -/
def mtNetResult : Features :=
  [("final_decision", PyVal.str "PASS"),
   ("primary_threat", PyVal.str "NONE"),
   ("risk_score", PyVal.num 10),
   ("confidence", PyVal.num 1),
   ("narrative", PyVal.str "AI evaluation."),
   ("rule_alignment", PyVal.str "AGREES_WITH_RULE")]

/-- Counterexample for C7: the claim says a malformed model response is NOT
retried but falls through to the fallback.  On `mtNet` the first attempt is
a malformed response, yet a second network call is made (after a backoff
sleep) and its PASS result - not the fallback - is returned: malformed
output IS retried. -/
theorem c7_malformed_retried_counterexample :
    (call_gemini_reasoning_rest "KEY" mtNet [] []).2.calls = 2 ∧
    (call_gemini_reasoning_rest "KEY" mtNet [] []).2.sleeps = 1 ∧
    (call_gemini_reasoning_rest "KEY" mtNet [] []).1 = mtNetResult ∧
    (call_gemini_reasoning_rest "KEY" mtNet [] []).1 ≠ gemNetErrFallback := by
  refine ⟨rfl, rfl, rfl, ?_⟩
  intro h
  have h2 : fget (call_gemini_reasoning_rest "KEY" mtNet [] []).1 "primary_threat" =
      fget gemNetErrFallback "primary_threat" := by rw [h]
  rw [show fget (call_gemini_reasoning_rest "KEY" mtNet [] []).1 "primary_threat" =
      PyVal.str "NONE" from rfl] at h2
  rw [show fget gemNetErrFallback "primary_threat" = PyVal.str "AI_NET_ERR" from rfl] at h2
  simp at h2

/-- Claim C7 as amended: with a credential configured, at most 3 attempts
are made and every network call passes a 30-second timeout; HTTP/network
errors AND malformed or unparsable response bodies back off one 0.5s sleep
and retry; a non-200 status or an empty candidates list is not retried (the
loop breaks straight to the fallback); a success within the budget is
returned and ends the attempts; and whenever no attempt returns a result the
fallback decision HOLD with primary_threat AI_NET_ERR and risk_score -1 is
returned (AI_ERR being reserved for unexpected exceptions outside the
attempt loop, which the loop itself cannot produce since it catches all
exceptions per attempt). -/
theorem c7_retry_budget_amended (key : String) (hk : key ≠ "")
    (net : ℕ → NetOutcome) (features rule_context : Features) :
    (call_gemini_reasoning_rest key net features rule_context).2.calls ≤ 3 ∧
    (call_gemini_reasoning_rest key net features rule_context).2.timeouts =
      List.replicate (call_gemini_reasoning_rest key net features rule_context).2.calls 30 ∧
    ((∀ i, i < 3 → stepOf (net i) = StepRes.retry) →
      call_gemini_reasoning_rest key net features rule_context =
        (gemNetErrFallback, ⟨3, [30, 30, 30], 3⟩)) ∧
    (stepOf (net 0) = StepRes.stop →
      call_gemini_reasoning_rest key net features rule_context =
        (gemNetErrFallback, ⟨1, [30], 0⟩)) ∧
    (∀ d, stepOf (net 0) = StepRes.retry → stepOf (net 1) = StepRes.done d →
      call_gemini_reasoning_rest key net features rule_context =
        (d, ⟨2, [30, 30], 1⟩)) ∧
    stepOf NetOutcome.httpError = StepRes.retry ∧
    stepOf NetOutcome.exn = StepRes.retry ∧
    stepOf (NetOutcome.response 200 RespBody.badJson) = StepRes.retry ∧
    stepOf (NetOutcome.response 200 (RespBody.json [⟨[ModelText.malformed]⟩])) =
      StepRes.retry ∧
    (∀ status body, status ≠ 200 →
      stepOf (NetOutcome.response status body) = StepRes.stop) ∧
    stepOf (NetOutcome.response 200 (RespBody.json [])) = StepRes.stop := by
  refine ⟨?_, ?_, ?_, ?_, ?_, rfl, rfl, rfl, rfl, ?_, rfl⟩
  · simpa [call_gemini_reasoning_rest, if_neg hk] using gemLoop_calls_le net 0 3
  · simp [call_gemini_reasoning_rest, if_neg hk]
  · intro h
    have h0 := h 0 (by norm_num)
    have h1 := h 1 (by norm_num)
    have h2 := h 2 (by norm_num)
    simp [call_gemini_reasoning_rest, if_neg hk, gemLoop, h0, h1, h2,
      List.replicate]
  · intro h0
    simp [call_gemini_reasoning_rest, if_neg hk, gemLoop, h0, List.replicate]
  · intro d h0 h1
    simp [call_gemini_reasoning_rest, if_neg hk, gemLoop, h0, h1,
      List.replicate]
  · intro status body h
    simp [stepOf, h]

/-- Witness for the amended C7: a network that always raises exhausts the 3
attempts with 3 sleeps and returns the AI_NET_ERR fallback; an empty
candidates list on attempt 1 stops after a single call; the malformed-then-
PASS network returns the PASS result after 2 calls and 1 sleep. -/
theorem c7_retry_budget_amended_witness :
    call_gemini_reasoning_rest "KEY" (fun _ => NetOutcome.exn) [] [] =
      (gemNetErrFallback, ⟨3, [30, 30, 30], 3⟩) ∧
    call_gemini_reasoning_rest "KEY"
        (fun _ => NetOutcome.response 200 (RespBody.json [])) [] [] =
      (gemNetErrFallback, ⟨1, [30], 0⟩) ∧
    call_gemini_reasoning_rest "KEY" mtNet [] [] = (mtNetResult, ⟨2, [30, 30], 1⟩) := by
  refine ⟨?_, ?_, ?_⟩
  · exact (c7_retry_budget_amended "KEY" (by decide) (fun _ => NetOutcome.exn)
      [] []).2.2.1 (fun i _ => rfl)
  · exact (c7_retry_budget_amended "KEY" (by decide)
      (fun _ => NetOutcome.response 200 (RespBody.json [])) [] []).2.2.2.1 rfl
  · exact (c7_retry_budget_amended "KEY" (by decide) mtNet [] []).2.2.2.2.1
      mtNetResult rfl rfl

/-- Claim C1: whenever the feature fetch yields a (non-empty) features row,
the per-transaction step runs the whole pipeline - enrichment polling, ratio
sanitation, rule re-evaluation with the bare-HOLD/Phase-1 fallback context,
the AI call - to completion: it returns success and logs a decision record
whose source is AI_AGENT_REVIEW. -/
theorem c1_pipeline_reaches_logging (env : WorkerEnv) (uc tid : String)
    (f0 : Features) (hf : env.fetchFeatures = Option.some f0) (hne : f0 ≠ []) :
    (process_single_txn env uc tid).1 = true ∧
    ∃ row, (process_single_txn env uc tid).2 = Option.some row ∧
      row.decision_source = "AI_AGENT_REVIEW" := by
  simp only [process_single_txn, hf]
  rw [if_neg hne]
  exact ⟨rfl, _, rfl, rfl⟩

/-- A concrete environment for the pipeline witness: features exist, the
enrichment store is empty, no rules fire, no credential is configured. -/
def demoEnv : WorkerEnv :=
  { fetchFeatures := Option.some
      [("withdrawal_amount", PyVal.num 1000), ("total_balance_sum", PyVal.num 0)]
    store := fun _ => (Option.none, Option.none)
    rules := []
    phase1Narr := Option.none
    behaviorCtx := PyVal.none
    net := fun _ => NetOutcome.exn
    apiKey := ""
    aiMs := 7 }

/-- Witness for C1 at `demoEnv`. -/
theorem c1_pipeline_reaches_logging_witness :
    (process_single_txn demoEnv "u1" "t1").1 = true ∧
    ∃ row, (process_single_txn demoEnv "u1" "t1").2 = Option.some row ∧
      row.decision_source = "AI_AGENT_REVIEW" :=
  c1_pipeline_reaches_logging demoEnv "u1" "t1"
    [("withdrawal_amount", PyVal.num 1000), ("total_balance_sum", PyVal.num 0)]
    rfl (by decide)

end RiskWorker
